import Mathlib

/-!
# Verification of the wopr-plugin-setup session / rollback core

Shallow embedding of the setup plugin's session store (`src/session-store.ts`),
session data model (`src/types.ts`) and the seven setup tool handlers
(`src/tools.ts`, given as `src/unnamed/part_002`), with the external
capabilities (host config persistence, install/uninstall HTTP calls, regular
expression matching) modelled as an explicit environment record.

Conventions of the embedding:
* JS `Map` objects (the session store, `collectedValues`) and the plain
  configuration object are association lists with `Map.set` semantics
  (replace in place, else append; keys unique by construction).
* Asynchronous handlers become pure functions threading a `World`
  (session store + persisted host configuration) and consulting an `Env`
  of oracles for every external call; a call that can throw or return a
  non-ok HTTP response is an outcome value of the oracle.
* `A2AToolResult` always carries a single text content block in this
  program, so it is embedded as a text/isError pair.
* Handlers additionally expose their externally observable effects that the
  TypeScript expresses through mutation: the rollback handler returns the
  sequence of mutations whose compensation it attempted (its trace of
  external calls) and the final state of the local `session` object.
-/

/-- A JS value as it occurs in config fields: the program only stores and
compares these values (`=== null`, `=== undefined`, `=== ""`,
`typeof value === "string"`), never computes with them. -/
inductive Value where
  | null
  | undefined
  | str (s : String)
  | num (n : Int)
  | bool (b : Bool)
deriving DecidableEq, Repr

/-- `typeof value === "string"`. -/
def Value.isStr : Value → Bool
  | .str _ => true
  | _ => false

/-- `ConfigField.type` enum from the input schema. -/
inductive FieldType where
  | text | password | select | checkbox | number | textarea
deriving DecidableEq, Repr

/-- A value/label pair of a select field. -/
structure SelectOption where
  value : String
  label : String
deriving DecidableEq, Repr

/-- `ConfigField` (external schema consumed by the plugin): name, type, label,
and the optional description, placeholder, required flag, validation pattern,
custom pattern error and select options.  The optional boolean `required` is
embedded as a `Bool` (JS truthiness: absent behaves as `false`). -/
structure ConfigField where
  name : String
  type : FieldType
  label : String
  description : Option String := none
  placeholder : Option String := none
  required : Bool := false
  pattern : Option String := none
  patternError : Option String := none
  options : Option (List SelectOption) := none
deriving DecidableEq, Repr

/-- `ConfigSchema`: the ordered field definitions a plugin declares. -/
structure ConfigSchema where
  fields : List ConfigField
deriving DecidableEq, Repr

/-- `SetupMutation` (src/types.ts): a reversible side effect recorded in
ledger order. -/
inductive SetupMutation where
  | saveConfig (key : String) (value : Value)
  | installDependency (pluginId : String)
deriving DecidableEq, Repr

/-- Association list with JS `Map.set` / object-assignment semantics. -/
def mapGet {α : Type} : List (String × α) → String → Option α
  | [], _ => none
  | (k', v) :: rest, k => if k' == k then some v else mapGet rest k

/-- `m.set(k, v)` / `m[k] = v`: replace in place if the key is present,
else append. -/
def mapSet {α : Type} : List (String × α) → String → α → List (String × α)
  | [], k, v => [(k, v)]
  | (k', v') :: rest, k, v =>
      if k' == k then (k, v) :: rest else (k', v') :: mapSet rest k v

/-- `m.delete(k)` / `delete m[k]`. -/
def mapDelete {α : Type} : List (String × α) → String → List (String × α)
  | [], _ => []
  | (k', v') :: rest, k =>
      if k' == k then mapDelete rest k else (k', v') :: mapDelete rest k

/-- `SetupSession` (src/types.ts): all state for a single setup conversation. -/
structure SetupSession where
  sessionId : String
  pluginId : String
  configSchema : ConfigSchema
  mutations : List SetupMutation
  collectedValues : List (String × Value)
  completed : Bool
  createdAt : Nat
deriving DecidableEq, Repr

/-- The session store: the module-level `Map<string, SetupSession>` of
src/session-store.ts. -/
abbrev Store := List (String × SetupSession)

/-- The host configuration object (`Record<string, unknown>`). -/
abbrev Config := List (String × Value)

/-- `createSession` (src/session-store.ts): builds a fresh session and
inserts it, overwriting any existing entry with the same id. -/
def createSession (store : Store) (sessionId pluginId : String)
    (configSchema : ConfigSchema) (now : Nat) : SetupSession × Store :=
  let session : SetupSession :=
    { sessionId := sessionId
      pluginId := pluginId
      configSchema := configSchema
      mutations := []
      collectedValues := []
      completed := false
      createdAt := now }
  (session, mapSet store sessionId session)

/-- `getSession` (src/session-store.ts). -/
def getSession (store : Store) (sessionId : String) : Option SetupSession :=
  mapGet store sessionId

/-- `deleteSession` (src/session-store.ts); the TS returns whether an entry
was removed, which no caller in this repository inspects. -/
def deleteSession (store : Store) (sessionId : String) : Store :=
  mapDelete store sessionId

/-- `isSetupActive` (src/session-store.ts). -/
def isSetupActive (store : Store) (sessionId : String) : Bool :=
  match getSession store sessionId with
  | some s => !s.completed
  | none => false

/-- `A2AToolResult` as produced by this program: every handler returns a
single text content block plus the error flag. -/
structure A2AToolResult where
  text : String
  isError : Bool
deriving DecidableEq, Repr

/-- `textResult` (src/tools.ts). -/
def textResult (text : String) (isError : Bool := false) : A2AToolResult :=
  { text := text, isError := isError }

/-- Outcome of the `fetch` to `POST /plugins/install`: either a response
(`res.ok`, `res.status`, parsed body fields `success?` and `error?`) or a
thrown error, stringified. -/
inductive InstallOutcome where
  | response (ok : Bool) (status : Nat) (success : Option Bool) (error : Option String)
  | thrown (err : String)
deriving DecidableEq, Repr

/-- Outcome of the `fetch` to `POST /plugins/uninstall`: a response with
`res.ok` and `res.status`, or a thrown error, stringified. -/
inductive UninstallOutcome where
  | response (ok : Bool) (status : Nat)
  | thrown (err : String)
deriving DecidableEq, Repr

/-- The external capabilities the handlers call out to.  `regexTest p s`
is `new RegExp(p).test(s)`; `persist` is `ctx.saveConfig` (`none` = resolved,
`some err` = threw, stringified); the persisted configuration changes exactly
when `persist` succeeds, and `ctx.getConfig()` reads it. -/
structure Env where
  regexTest : String → String → Bool
  persist : Config → Option String
  uninstall : String → UninstallOutcome
  install : String → InstallOutcome

/-- The mutable state the handlers touch: the session store and the
persisted host configuration behind `ctx.getConfig` / `ctx.saveConfig`. -/
structure World where
  sessions : Store
  hostConfig : Config
deriving DecidableEq, Repr

/-- The payload of the `setup:complete` event. -/
structure CompleteEvent where
  pluginId : String
  sessionId : String
  configKeys : List String
deriving DecidableEq, Repr

/-- `hay` contains `needle` as a substring. -/
def strContains (hay needle : String) : Prop :=
  ∃ pre post, hay = pre ++ needle ++ post

/-!
## The setup tool handlers (src/tools.ts)

`setup.ask`, `setup.validateKey` and `setup.testConnection` perform no
session mutation; the four session-mutating handlers are embedded below.
-/

/-- `setup.installDependency` handler: session must exist; POSTs the install
request; on `!res.ok || !body.success` reports the body error (else
`HTTP <status>`); on success appends an `installDependency` mutation to the
session ledger. -/
def installDependencyHandler (env : Env) (w : World)
    (sessionId pluginId : String) : A2AToolResult × World :=
  match getSession w.sessions sessionId with
  | none => (textResult ("No active setup session: " ++ sessionId) true, w)
  | some session =>
    match env.install pluginId with
    | .thrown err =>
        (textResult ("Failed to install " ++ pluginId ++ ": " ++ err) true, w)
    | .response ok status success error =>
        if !ok || !(success.getD false) then
          (textResult ("Failed to install " ++ pluginId ++ ": " ++
              error.getD ("HTTP " ++ toString status)) true, w)
        else
          let session' :=
            { session with
                mutations := session.mutations ++ [.installDependency pluginId] }
          (textResult ("Successfully installed " ++ pluginId),
           { w with sessions := mapSet w.sessions sessionId session' })

/-- The `try` block of the `setup.saveConfig` handler: read the current
configuration, set `key`, persist; on success append a `saveConfig` mutation
and record the collected value; a persistence failure is caught and reported,
recording nothing. -/
def attemptSave (env : Env) (w : World) (session : SetupSession)
    (sessionId key : String) (value : Value) : A2AToolResult × World :=
  let currentConfig := mapSet w.hostConfig key value
  match env.persist currentConfig with
  | some err =>
      (textResult ("Failed to save \"" ++ key ++ "\": " ++ err) true, w)
  | none =>
      let session' :=
        { session with
            mutations := session.mutations ++ [.saveConfig key value]
            collectedValues := mapSet session.collectedValues key value }
      (textResult ("Saved \"" ++ key ++ "\" successfully."),
       { w with
           hostConfig := currentConfig
           sessions := mapSet w.sessions sessionId session' })

/-- `setup.saveConfig` handler: session must exist; the field must be
declared in the session schema; a required field rejects null, undefined and
the empty string; a pattern-bearing field rejects a string value failing the
regular expression (custom `patternError` first, else a generic message with
the pattern text) and skips the check for non-string values; then the value
is persisted and recorded (`attemptSave`). -/
def saveConfigHandler (env : Env) (w : World)
    (sessionId key : String) (value : Value) : A2AToolResult × World :=
  match getSession w.sessions sessionId with
  | none => (textResult ("No active setup session: " ++ sessionId) true, w)
  | some session =>
    match session.configSchema.fields.find? (fun f => f.name == key) with
    | none =>
        (textResult ("Unknown config field: " ++ key ++ ". Valid fields: " ++
            String.intercalate ", " (session.configSchema.fields.map (·.name)))
          true, w)
    | some field =>
      if field.required &&
          (value == .null || value == .undefined || value == .str "") then
        (textResult ("Field \"" ++ key ++ "\" is required and cannot be empty.")
          true, w)
      else
        match field.pattern, value with
        | some p, .str s =>
            if !(env.regexTest p s) then
              (textResult (field.patternError.getD
                  ("Value for \"" ++ key ++ "\" does not match pattern: " ++ p))
                true, w)
            else attemptSave env w session sessionId key value
        | some _, _ => attemptSave env w session sessionId key value
        | none, _ => attemptSave env w session sessionId key value

/-- `setup.complete` handler: session must exist and not already be
completed; marks `completed = true` and emits the `setup:complete` event with
the plugin id, session id and collected config keys.  The third component is
the list of events emitted by the call. -/
def completeHandler (w : World) (sessionId : String) :
    A2AToolResult × World × List CompleteEvent :=
  match getSession w.sessions sessionId with
  | none => (textResult ("No active setup session: " ++ sessionId) true, w, [])
  | some session =>
    if session.completed then
      (textResult "Setup already completed." true, w, [])
    else
      let session' := { session with completed := true }
      (textResult ("Setup complete for " ++ session.pluginId ++
          ". Plugin is now active."),
       { w with sessions := mapSet w.sessions sessionId session' },
       [{ pluginId := session.pluginId
          sessionId := sessionId
          configKeys := session.collectedValues.map Prod.fst }])

/-- One iteration of the rollback loop: attempt the compensating action for
one mutation against the current configuration; returns the configuration
afterwards and the error message pushed, if any.  A `saveConfig` mutation is
compensated by deleting the key and persisting (a thrown persistence error is
caught as `Rollback error: …` and leaves the persisted configuration as it
was); an `installDependency` mutation by the uninstall call (`!res.ok` pushes
`Failed to uninstall …: HTTP <status>`, a thrown fetch error is caught as
`Rollback error: …`). -/
def compensate (env : Env) (cfg : Config) :
    SetupMutation → Config × Option String
  | .saveConfig key _ =>
      let currentConfig := mapDelete cfg key
      match env.persist currentConfig with
      | none => (currentConfig, none)
      | some err => (cfg, some ("Rollback error: " ++ err))
  | .installDependency pluginId =>
      match env.uninstall pluginId with
      | .response ok status =>
          if !ok then
            (cfg, some ("Failed to uninstall " ++ pluginId ++ ": HTTP " ++
                toString status))
          else (cfg, none)
      | .thrown err => (cfg, some ("Rollback error: " ++ err))

/-- The rollback loop over an already-reversed ledger: attempts every
compensation in list order, threading the configuration and collecting (not
halting on) errors.  Also returns the trace of mutations whose compensation
was attempted, in attempt order. -/
def runCompensations (env : Env) (cfg : Config) :
    List SetupMutation → Config × List String × List SetupMutation
  | [] => (cfg, [], [])
  | m :: rest =>
      let step := compensate env cfg m
      let tail := runCompensations env step.1 rest
      (tail.1,
       (match step.2 with
        | none => tail.2.1
        | some e => e :: tail.2.1),
       m :: tail.2.2)

/-- `setup.rollback` handler: session must exist; builds the reverse-order
copy of the ledger, attempts every compensation (best-effort), then
unconditionally clears the ledger and collected values and deletes the
session; reports success when no error was collected, else an error result
joining all messages.  The third component is the compensation trace, the
fourth the final state of the handler's local `session` object (cleared). -/
def rollbackHandler (env : Env) (w : World) (sessionId : String) :
    A2AToolResult × World × List SetupMutation × Option SetupSession :=
  match getSession w.sessions sessionId with
  | none =>
      (textResult ("No active setup session: " ++ sessionId) true, w, [], none)
  | some session =>
    let reversed := session.mutations.reverse
    let run := runCompensations env w.hostConfig reversed
    let errors := run.2.1
    let clearedSession := { session with mutations := [], collectedValues := [] }
    let w' : World :=
      { hostConfig := run.1
        sessions :=
          deleteSession (mapSet w.sessions sessionId clearedSession) sessionId }
    if errors.length > 0 then
      (textResult ("Rollback completed with errors:\n" ++
          String.intercalate "\n" errors) true, w', run.2.2, some clearedSession)
    else
      (textResult "Rollback complete. All changes undone.", w', run.2.2,
       some clearedSession)

/-!
## Concrete fixtures

Small worlds, sessions and environments used to evaluate the theorems on
explicit inputs.
-/

/-- An environment in which every external call succeeds. -/
def envOk : Env :=
  { regexTest := fun _ _ => true
    persist := fun _ => none
    uninstall := fun _ => .response true 200
    install := fun _ => .response true 200 (some true) none }

/-- An environment in which every uninstall call answers HTTP 500 and the
regular expression never matches. -/
def envBad : Env :=
  { regexTest := fun _ _ => false
    persist := fun _ => none
    uninstall := fun _ => .response false 500
    install := fun _ => .response true 200 none none }

/-- A required password field named `token`. -/
def tokenField : ConfigField :=
  { name := "token", type := .password, label := "API token", required := true }

/-- A required field with a validation pattern and a custom pattern error. -/
def patternField : ConfigField :=
  { name := "token", type := .text, label := "API token", required := true,
    pattern := some "^sk-[a-z0-9]+$",
    patternError := some "Token must start with sk-" }

/-- A non-required field with a pattern and a custom pattern error. -/
def optPatternField : ConfigField :=
  { name := "host", type := .text, label := "Host", required := false,
    pattern := some "^https://", patternError := some "Host must use https" }

/-- A fresh session `s1` over the single `token` field. -/
def sessionTok : SetupSession :=
  { sessionId := "s1", pluginId := "demo-plugin",
    configSchema := { fields := [tokenField] },
    mutations := [], collectedValues := [], completed := false, createdAt := 0 }

/-- A session `s2` whose ledger holds three mutations [A, B, C]. -/
def sessionABC : SetupSession :=
  { sessionTok with
    sessionId := "s2",
    mutations := [.saveConfig "a" (.str "1"), .installDependency "p1",
      .saveConfig "c" (.str "3")] }

/-- The spec scenario session `s3`: ledger
[saveConfig a 1, installDependency p1]. -/
def sessionS3 : SetupSession :=
  { sessionTok with
    sessionId := "s3",
    mutations := [.saveConfig "a" (.num 1), .installDependency "p1"],
    collectedValues := [("a", .num 1)] }

/-- An already-completed session `s9`. -/
def sessionDone : SetupSession :=
  { sessionTok with
    sessionId := "s9", completed := true,
    mutations := [.saveConfig "token" (.str "sk-abc")],
    collectedValues := [("token", .str "sk-abc")] }

/-- A session `s4` over the required pattern field. -/
def sessionPat : SetupSession :=
  { sessionTok with
    sessionId := "s4",
    configSchema := { fields := [patternField] } }

/-- A session `s5` over the optional pattern field. -/
def sessionOptPat : SetupSession :=
  { sessionTok with
    sessionId := "s5",
    configSchema := { fields := [optPatternField] } }

/-- A world holding all fixture sessions and one persisted config key. -/
def wAll : World :=
  { sessions := [("s1", sessionTok), ("s2", sessionABC), ("s3", sessionS3),
      ("s9", sessionDone), ("s4", sessionPat), ("s5", sessionOptPat)],
    hostConfig := [("a", .num 1)] }

/-!
## Basic lemmas about the map operations and the rollback loop
-/

theorem mapGet_mapSet_self {α : Type} (m : List (String × α)) (k : String)
    (v : α) : mapGet (mapSet m k v) k = some v := by
  induction m with
  | nil => simp [mapGet, mapSet]
  | cons p rest ih =>
    obtain ⟨k', v'⟩ := p
    by_cases h : k' = k
    · simp [mapSet, mapGet, h]
    · simp [mapSet, mapGet, h, ih]

theorem mapGet_mapSet_ne {α : Type} (m : List (String × α)) (k k' : String)
    (v : α) (h : k' ≠ k) : mapGet (mapSet m k v) k' = mapGet m k' := by
  induction m with
  | nil => simp [mapGet, mapSet, Ne.symm h]
  | cons p rest ih =>
    obtain ⟨k'', v''⟩ := p
    by_cases hkk : k'' = k
    · subst hkk
      simp [mapSet, mapGet, Ne.symm h]
    · simp [mapSet, mapGet, hkk, ih]

theorem mapGet_mapDelete_self {α : Type} (m : List (String × α)) (k : String) :
    mapGet (mapDelete m k) k = none := by
  induction m with
  | nil => simp [mapGet, mapDelete]
  | cons p rest ih =>
    obtain ⟨k', v'⟩ := p
    by_cases h : k' = k
    · simp [mapDelete, h, ih]
    · simp [mapDelete, mapGet, h, ih]

theorem mapGet_mapDelete_of_none {α : Type} (m : List (String × α))
    (k k' : String) (h : mapGet m k = none) :
    mapGet (mapDelete m k') k = none := by
  induction m with
  | nil => simpa [mapDelete] using h
  | cons p rest ih =>
    obtain ⟨k'', v''⟩ := p
    have hk : ¬k'' = k := by
      intro hk
      simp [mapGet, hk] at h
    have h' : mapGet rest k = none := by simpa [mapGet, hk] using h
    by_cases hd : k'' = k'
    · simpa [mapDelete, hd] using ih h'
    · simpa [mapDelete, hd, mapGet, hk] using ih h'

/-- The rollback loop attempts exactly the mutations it is given, in order. -/
theorem runCompensations_trace (env : Env) (cfg : Config)
    (muts : List SetupMutation) :
    (runCompensations env cfg muts).2.2 = muts := by
  induction muts generalizing cfg with
  | nil => rfl
  | cons m rest ih => simp [runCompensations, ih]

/-- One compensation step never introduces a configuration key. -/
theorem mapGet_compensate_of_none (env : Env) (cfg : Config)
    (m : SetupMutation) (key : String) (h : mapGet cfg key = none) :
    mapGet (compensate env cfg m).1 key = none := by
  cases m with
  | saveConfig k v =>
    simp only [compensate]
    cases henv : env.persist (mapDelete cfg k) with
    | none => simpa using mapGet_mapDelete_of_none cfg key k h
    | some err => simpa using h
  | installDependency pid =>
    simp only [compensate]
    cases henv : env.uninstall pid with
    | response ok status =>
      cases ok <;> simpa using h
    | thrown err => simpa using h

/-- The whole rollback loop never introduces a configuration key. -/
theorem mapGet_runCompensations_of_none (env : Env)
    (muts : List SetupMutation) (cfg : Config) (key : String)
    (h : mapGet cfg key = none) :
    mapGet (runCompensations env cfg muts).1 key = none := by
  induction muts generalizing cfg with
  | nil => simpa using h
  | cons m rest ih =>
    simp only [runCompensations]
    exact ih _ (mapGet_compensate_of_none env cfg m key h)

/-!
## Characterizations of the handlers on an existing session
-/

/-- On an existing session, the rollback handler's resulting host
configuration is the one produced by the compensation loop over the
reversed ledger. -/
theorem rollbackHandler_hostConfig (env : Env) (w : World) (sessionId : String)
    (session : SetupSession)
    (hs : getSession w.sessions sessionId = some session) :
    ((rollbackHandler env w sessionId).2.1).hostConfig =
      (runCompensations env w.hostConfig session.mutations.reverse).1 := by
  simp only [rollbackHandler, hs]
  split <;> rfl

/-- On an existing session, the rollback handler's resulting session store is
the store with the (cleared) session written back and then deleted. -/
theorem rollbackHandler_sessions (env : Env) (w : World) (sessionId : String)
    (session : SetupSession)
    (hs : getSession w.sessions sessionId = some session) :
    ((rollbackHandler env w sessionId).2.1).sessions =
      deleteSession
        (mapSet w.sessions sessionId
          { session with mutations := [], collectedValues := [] })
        sessionId := by
  simp only [rollbackHandler, hs]
  split <;> rfl

/-- On an existing session, the rollback handler's compensation trace is the
trace of the compensation loop over the reversed ledger. -/
theorem rollbackHandler_trace (env : Env) (w : World) (sessionId : String)
    (session : SetupSession)
    (hs : getSession w.sessions sessionId = some session) :
    (rollbackHandler env w sessionId).2.2.1 =
      (runCompensations env w.hostConfig session.mutations.reverse).2.2 := by
  simp only [rollbackHandler, hs]
  split <;> rfl

/-- On an existing session, the rollback handler's local session object ends
cleared. -/
theorem rollbackHandler_localSession (env : Env) (w : World)
    (sessionId : String) (session : SetupSession)
    (hs : getSession w.sessions sessionId = some session) :
    (rollbackHandler env w sessionId).2.2.2 =
      some { session with mutations := [], collectedValues := [] } := by
  simp only [rollbackHandler, hs]
  split <;> rfl

/-- On an existing session, the rollback handler's result is determined by
the error list of the compensation loop: the success text when it is empty,
else the error banner joining all collected messages. -/
theorem rollbackHandler_result (env : Env) (w : World) (sessionId : String)
    (session : SetupSession)
    (hs : getSession w.sessions sessionId = some session) :
    (rollbackHandler env w sessionId).1 =
      (if (runCompensations env w.hostConfig session.mutations.reverse).2.1 = []
       then textResult "Rollback complete. All changes undone."
       else textResult ("Rollback completed with errors:\n" ++
              String.intercalate "\n"
                (runCompensations env w.hostConfig session.mutations.reverse).2.1)
              true) := by
  simp only [rollbackHandler, hs]
  split
  · next hlen =>
      rw [if_neg]
      intro hnil
      rw [hnil] at hlen
      simp at hlen
  · next hlen =>
      rw [if_pos]
      by_contra hnil
      have : 0 < (runCompensations env w.hostConfig
          session.mutations.reverse).2.1.length :=
        List.length_pos.mpr hnil
      omega

/-- A value accepted by the field validator (field found, required check
passed, pattern check passed or skipped) reaches the persistence step. -/
theorem saveConfigHandler_accepted (env : Env) (w : World)
    (sessionId key : String) (value : Value) (session : SetupSession)
    (field : ConfigField)
    (hs : getSession w.sessions sessionId = some session)
    (hf : session.configSchema.fields.find? (fun f => f.name == key)
        = some field)
    (hreq : (field.required &&
        (value == Value.null || value == Value.undefined ||
         value == Value.str "")) = false)
    (hpat : ∀ p s, field.pattern = some p → value = Value.str s →
        env.regexTest p s = true) :
    saveConfigHandler env w sessionId key value =
      attemptSave env w session sessionId key value := by
  simp only [saveConfigHandler, hs, hf, hreq, Bool.false_eq_true, if_false]
  cases hp : field.pattern with
  | none => cases value <;> rfl
  | some p =>
    cases value with
    | str s => simp [hpat p s hp rfl]
    | null => rfl
    | undefined => rfl
    | num n => rfl
    | bool b => rfl

/-- When persistence succeeds, `attemptSave` records the mutation and the
collected value and updates the host configuration. -/
theorem attemptSave_success (env : Env) (w : World) (session : SetupSession)
    (sessionId key : String) (value : Value)
    (hp : env.persist (mapSet w.hostConfig key value) = none) :
    attemptSave env w session sessionId key value =
      (textResult ("Saved \"" ++ key ++ "\" successfully."),
       { hostConfig := mapSet w.hostConfig key value
         sessions := mapSet w.sessions sessionId
           { session with
               mutations := session.mutations ++ [.saveConfig key value]
               collectedValues := mapSet session.collectedValues key value } }) := by
  simp [attemptSave, hp]

/-- Appending to `hay` on the left preserves a substring occurrence. -/
theorem strContains_append_left (a c needle : String)
    (h : strContains c needle) : strContains (a ++ c) needle := by
  obtain ⟨p, q, hc⟩ := h
  refine ⟨a ++ p, q, ?_⟩
  rw [hc]
  simp [String.append_assoc]

/-- The required-field rejection message always contains "required". -/
theorem required_msg_contains (key : String) :
    strContains ("Field \"" ++ key ++ "\" is required and cannot be empty.")
      "required" :=
  strContains_append_left ("Field \"" ++ key)
    "\" is required and cannot be empty." "required"
    ⟨"\" is ", " and cannot be empty.", by decide⟩

/-- On an existing, not-yet-completed session, `setup.complete` marks the
session completed, emits exactly one event, and reports success. -/
theorem completeHandler_not_completed (w : World) (sessionId : String)
    (session : SetupSession)
    (hs : getSession w.sessions sessionId = some session)
    (hc : session.completed = false) :
    completeHandler w sessionId =
      (textResult ("Setup complete for " ++ session.pluginId ++
          ". Plugin is now active."),
       { w with
           sessions := mapSet w.sessions sessionId
             { session with completed := true } },
       [{ pluginId := session.pluginId, sessionId := sessionId,
          configKeys := session.collectedValues.map Prod.fst }]) := by
  simp only [completeHandler, hs, hc, Bool.false_eq_true, if_false]

/-!
## The claims
-/

/-- Claim C1: for every session whose mutation ledger is [A, B, C, ...] in
insertion order, rollback attempts the compensating actions in strict
reverse-insertion order — its compensation trace is exactly the reverse of
the ledger. -/
theorem C1_rollback_reverse_order (env : Env) (w : World) (sessionId : String)
    (session : SetupSession)
    (hs : getSession w.sessions sessionId = some session) :
    (rollbackHandler env w sessionId).2.2.1 = session.mutations.reverse := by
  rw [rollbackHandler_trace env w sessionId session hs, runCompensations_trace]

/-- Witness for C1: on the fixture session `s2` with ledger [A, B, C], the
compensations are attempted in order [C, B, A]. -/
theorem C1_witness :
    (rollbackHandler envOk wAll "s2").2.2.1 =
      [.saveConfig "c" (.str "3"), .installDependency "p1",
       .saveConfig "a" (.str "1")] := by
  rw [C1_rollback_reverse_order envOk wAll "s2" sessionABC (by decide)]
  decide

/-- Claim C2: rollback is best-effort and non-short-circuiting: every
mutation's compensation is attempted regardless of failures (the trace covers
the whole ledger), an empty error list reports success, and a non-empty error
list reports a single error result joining all individual failure
messages. -/
theorem C2_rollback_best_effort (env : Env) (w : World) (sessionId : String)
    (session : SetupSession)
    (hs : getSession w.sessions sessionId = some session) :
    ((rollbackHandler env w sessionId).2.2.1).length
        = session.mutations.length ∧
    ((runCompensations env w.hostConfig session.mutations.reverse).2.1 = [] →
      (rollbackHandler env w sessionId).1 =
        textResult "Rollback complete. All changes undone.") ∧
    (∀ errs,
      (runCompensations env w.hostConfig session.mutations.reverse).2.1
        = errs →
      errs ≠ [] →
      (rollbackHandler env w sessionId).1 =
        textResult
          ("Rollback completed with errors:\n" ++ String.intercalate "\n" errs)
          true) := by
  refine ⟨?_, ?_, ?_⟩
  · rw [rollbackHandler_trace env w sessionId session hs,
      runCompensations_trace, List.length_reverse]
  · intro hnil
    rw [rollbackHandler_result env w sessionId session hs, if_pos hnil]
  · intro errs herrs hne
    rw [rollbackHandler_result env w sessionId session hs, herrs,
      if_neg hne]

/-- Witness for C2: on the spec scenario session `s3` under an environment
whose uninstall fails with HTTP 500, both compensations are still attempted
and the single error result carries the uninstall failure message. -/
theorem C2_witness :
    ((rollbackHandler envBad wAll "s3").2.2.1).length = 2 ∧
    (rollbackHandler envBad wAll "s3").1 =
      textResult
        "Rollback completed with errors:\nFailed to uninstall p1: HTTP 500"
        true := by
  have h := C2_rollback_best_effort envBad wAll "s3" sessionS3 (by decide)
  refine ⟨by simpa using h.1, ?_⟩
  rw [h.2.2 ["Failed to uninstall p1: HTTP 500"] (by decide) (by decide)]
  decide

/-- Claim C3: for every existing session and any number of compensation
failures, rollback clears the mutation ledger and the collected-values map of
the session object and deletes the session from the store: `getSession`
afterwards returns absent. -/
theorem C3_rollback_clears_and_deletes (env : Env) (w : World)
    (sessionId : String) (session : SetupSession)
    (hs : getSession w.sessions sessionId = some session) :
    (rollbackHandler env w sessionId).2.2.2 =
      some { session with mutations := [], collectedValues := [] } ∧
    getSession ((rollbackHandler env w sessionId).2.1).sessions sessionId
      = none := by
  refine ⟨rollbackHandler_localSession env w sessionId session hs, ?_⟩
  rw [rollbackHandler_sessions env w sessionId session hs]
  simpa [getSession, deleteSession] using
    mapGet_mapDelete_self
      (mapSet w.sessions sessionId
        { session with mutations := [], collectedValues := [] }) sessionId

/-- Witness for C3: rolling back `s3` under the failing environment still
clears the session object and removes `s3` from the store. -/
theorem C3_witness :
    (rollbackHandler envBad wAll "s3").2.2.2 =
      some { sessionS3 with mutations := [], collectedValues := [] } ∧
    getSession ((rollbackHandler envBad wAll "s3").2.1).sessions "s3"
      = none :=
  C3_rollback_clears_and_deletes envBad wAll "s3" sessionS3 (by decide)

/-- Counterexample to claim C4 as stated: on the completed fixture session
`s9`, rollback does not fail — it reports success and deletes the session
(a state change), because the rollback handler only checks that the session
exists, never its `completed` flag. -/
theorem C4_counterexample :
    (getSession wAll.sessions "s9").map SetupSession.completed = some true ∧
    (rollbackHandler envOk wAll "s9").1.isError = false ∧
    getSession ((rollbackHandler envOk wAll "s9").2.1).sessions "s9"
      = none := by
  refine ⟨by decide, by decide, by decide⟩

/-- Claim C4 as amended: `complete` on an already-completed session fails
with no state change and no event, and both operations fail without side
effects on an absent (already rolled-back) session; but `rollback` on a
session with `completed = true` is not rejected — it proceeds, attempts
every compensation, and deletes the session. -/
theorem C4_amended (w : World) (sessionId : String) (env : Env) :
    (∀ session, getSession w.sessions sessionId = some session →
      session.completed = true →
      completeHandler w sessionId =
        (textResult "Setup already completed." true, w, []) ∧
      (rollbackHandler env w sessionId).2.2.1 = session.mutations.reverse ∧
      getSession ((rollbackHandler env w sessionId).2.1).sessions sessionId
        = none) ∧
    (getSession w.sessions sessionId = none →
      completeHandler w sessionId =
        (textResult ("No active setup session: " ++ sessionId) true, w, []) ∧
      rollbackHandler env w sessionId =
        (textResult ("No active setup session: " ++ sessionId) true, w, [],
          none)) := by
  constructor
  · intro session hsess hc
    refine ⟨?_, ?_, ?_⟩
    · simp only [completeHandler, hsess, hc, if_true]
    · rw [rollbackHandler_trace env w sessionId session hsess,
        runCompensations_trace]
    · rw [rollbackHandler_sessions env w sessionId session hsess]
      simpa [getSession, deleteSession] using
        mapGet_mapDelete_self
          (mapSet w.sessions sessionId
            { session with mutations := [], collectedValues := [] }) sessionId
  · intro hnone
    exact ⟨by simp only [completeHandler, hnone],
      by simp only [rollbackHandler, hnone]⟩

/-- Witness for the amended C4 on the completed fixture session `s9`. -/
theorem C4_witness :
    completeHandler wAll "s9" =
      (textResult "Setup already completed." true, wAll, []) ∧
    getSession ((rollbackHandler envOk wAll "s9").2.1).sessions "s9"
      = none := by
  have h := (C4_amended wAll "s9" envOk).1 sessionDone (by decide) (by decide)
  exact ⟨h.1, h.2.2⟩

/-- Claim C6: `complete` on a session whose `completed` flag is already true
always returns the conflict error, emits no event, and leaves the whole
world unchanged. -/
theorem C6_complete_already_completed (w : World) (sessionId : String)
    (session : SetupSession)
    (hs : getSession w.sessions sessionId = some session)
    (hc : session.completed = true) :
    completeHandler w sessionId =
      (textResult "Setup already completed." true, w, []) := by
  simp only [completeHandler, hs, hc, if_true]

/-- Witness for C6 on the completed fixture session `s9`. -/
theorem C6_witness :
    completeHandler wAll "s9" =
      (textResult "Setup already completed." true, wAll, []) :=
  C6_complete_already_completed wAll "s9" sessionDone (by decide) (by decide)

/-- Claim C9: a successful `complete` changes only the session's `completed`
flag: it reports success, emits the single completion event, stores the
session unchanged except for `completed := true` (so sessionId, pluginId,
configSchema, mutations and collectedValues are preserved), leaves every
other session untouched, and does not touch the host configuration. -/
theorem C9_complete_frame (w : World) (sessionId : String)
    (session : SetupSession)
    (hs : getSession w.sessions sessionId = some session)
    (hc : session.completed = false) :
    (completeHandler w sessionId).1 =
      textResult ("Setup complete for " ++ session.pluginId ++
        ". Plugin is now active.") ∧
    (completeHandler w sessionId).2.2 =
      [{ pluginId := session.pluginId, sessionId := sessionId,
         configKeys := session.collectedValues.map Prod.fst }] ∧
    getSession ((completeHandler w sessionId).2.1).sessions sessionId =
      some { session with completed := true } ∧
    (∀ other, other ≠ sessionId →
      getSession ((completeHandler w sessionId).2.1).sessions other =
        getSession w.sessions other) ∧
    ((completeHandler w sessionId).2.1).hostConfig = w.hostConfig := by
  rw [completeHandler_not_completed w sessionId session hs hc]
  refine ⟨rfl, rfl, ?_, ?_, rfl⟩
  · simpa [getSession] using
      mapGet_mapSet_self w.sessions sessionId
        { session with completed := true }
  · intro other hother
    simpa [getSession] using
      mapGet_mapSet_ne w.sessions sessionId other
        { session with completed := true } hother

/-- Witness for C9: completing the fresh fixture session `s1` emits one
event, flips only its `completed` flag, and leaves session `s3` alone. -/
theorem C9_witness :
    (completeHandler wAll "s1").1 =
      textResult "Setup complete for demo-plugin. Plugin is now active." ∧
    (completeHandler wAll "s1").2.2 =
      [{ pluginId := "demo-plugin", sessionId := "s1", configKeys := [] }] ∧
    getSession ((completeHandler wAll "s1").2.1).sessions "s1" =
      some { sessionTok with completed := true } ∧
    getSession ((completeHandler wAll "s1").2.1).sessions "s3" =
      getSession wAll.sessions "s3" ∧
    ((completeHandler wAll "s1").2.1).hostConfig = wAll.hostConfig := by
  have h := C9_complete_frame wAll "s1" sessionTok (by decide) (by decide)
  refine ⟨?_, ?_, h.2.2.1, h.2.2.2.1 "s3" (by decide), h.2.2.2.2⟩
  · rw [h.1]; decide
  · rw [h.2.1]; decide

/-- Claim C7: for a field declared required, `saveConfig` with null,
undefined, or the empty string always returns the required-field error — the
message contains "required" — and the world (in particular the session's
ledger) is unchanged, so no mutation is appended. -/
theorem C7_required_empty_rejected (env : Env) (w : World)
    (sessionId key : String) (value : Value) (session : SetupSession)
    (field : ConfigField)
    (hs : getSession w.sessions sessionId = some session)
    (hf : session.configSchema.fields.find? (fun f => f.name == key)
        = some field)
    (hrequired : field.required = true)
    (hv : value = Value.null ∨ value = Value.undefined ∨
        value = Value.str "") :
    saveConfigHandler env w sessionId key value =
      (textResult ("Field \"" ++ key ++ "\" is required and cannot be empty.")
        true, w) ∧
    strContains (saveConfigHandler env w sessionId key value).1.text
      "required" := by
  have hcond : (field.required &&
      (value == Value.null || value == Value.undefined ||
       value == Value.str "")) = true := by
    rcases hv with h | h | h <;> simp [hrequired, h]
  have hmain : saveConfigHandler env w sessionId key value =
      (textResult ("Field \"" ++ key ++ "\" is required and cannot be empty.")
        true, w) := by
    simp only [saveConfigHandler, hs, hf, hcond, if_true]
  refine ⟨hmain, ?_⟩
  rw [hmain]
  exact required_msg_contains key

/-- Witness for C7: saving the empty string to the required `token` field of
session `s1` yields the required-field error and leaves the world as it
was. -/
theorem C7_witness :
    saveConfigHandler envOk wAll "s1" "token" (Value.str "") =
      (textResult "Field \"token\" is required and cannot be empty." true,
        wAll) ∧
    strContains
      (saveConfigHandler envOk wAll "s1" "token" (Value.str "")).1.text
      "required" := by
  have h := C7_required_empty_rejected envOk wAll "s1" "token" (Value.str "")
    sessionTok tokenField (by decide) (by decide) (by decide)
    (Or.inr (Or.inr rfl))
  refine ⟨?_, h.2⟩
  rw [h.1]
  decide

/-- Claim C5: for every field/value pair accepted by the field validator
(and with the persistence capability succeeding), `saveConfig` followed by
`rollback` leaves the saved key absent from the host configuration. -/
theorem C5_saveConfig_rollback_key_absent (env : Env) (w : World)
    (sessionId key : String) (value : Value) (session : SetupSession)
    (field : ConfigField)
    (hs : getSession w.sessions sessionId = some session)
    (hf : session.configSchema.fields.find? (fun f => f.name == key)
        = some field)
    (hreq : (field.required &&
        (value == Value.null || value == Value.undefined ||
         value == Value.str "")) = false)
    (hpat : ∀ p s, field.pattern = some p → value = Value.str s →
        env.regexTest p s = true)
    (hpersist : ∀ c, env.persist c = none) :
    (saveConfigHandler env w sessionId key value).1.isError = false ∧
    mapGet
      (((rollbackHandler env
          ((saveConfigHandler env w sessionId key value).2)
          sessionId).2.1).hostConfig)
      key = none := by
  have hsave := saveConfigHandler_accepted env w sessionId key value session
    field hs hf hreq hpat
  have hatt := attemptSave_success env w session sessionId key value
    (hpersist _)
  rw [hsave, hatt]
  refine ⟨rfl, ?_⟩
  have hs1 : getSession
      (mapSet w.sessions sessionId
        { session with
            mutations := session.mutations ++ [.saveConfig key value]
            collectedValues := mapSet session.collectedValues key value })
      sessionId =
      some { session with
          mutations := session.mutations ++ [.saveConfig key value]
          collectedValues := mapSet session.collectedValues key value } := by
    simpa [getSession] using
      mapGet_mapSet_self w.sessions sessionId
        { session with
            mutations := session.mutations ++ [.saveConfig key value]
            collectedValues := mapSet session.collectedValues key value }
  rw [rollbackHandler_hostConfig env _ sessionId _ hs1]
  simp only [List.reverse_append, List.reverse_cons, List.reverse_nil,
    List.nil_append, List.singleton_append, runCompensations, compensate,
    hpersist]
  exact mapGet_runCompensations_of_none env session.mutations.reverse
    (mapDelete (mapSet w.hostConfig key value) key) key
    (mapGet_mapDelete_self (mapSet w.hostConfig key value) key)

/-- Witness for C5: saving `sk-123` to the `token` field of session `s1` and
rolling back leaves `token` absent from the host configuration. -/
theorem C5_witness :
    (saveConfigHandler envOk wAll "s1" "token"
      (Value.str "sk-123")).1.isError = false ∧
    mapGet
      (((rollbackHandler envOk
          ((saveConfigHandler envOk wAll "s1" "token"
            (Value.str "sk-123")).2) "s1").2.1).hostConfig)
      "token" = none :=
  C5_saveConfig_rollback_key_absent envOk wAll "s1" "token"
    (Value.str "sk-123") sessionTok tokenField (by decide) (by decide)
    (by decide) (fun p s hp _ => Option.noConfusion hp) (fun _ => rfl)

/-- Counterexample to claim C8 as stated: on the required pattern field of
session `s4`, the empty string is a string value that fails the pattern
match (the environment's regular expression never matches), and a custom
`patternError` is declared — yet `saveConfig` answers with the
required-field message, not the declared pattern error, because the
required check runs first. -/
theorem C8_counterexample :
    patternField.pattern = some "^sk-[a-z0-9]+$" ∧
    patternField.patternError = some "Token must start with sk-" ∧
    patternField.required = true ∧
    envBad.regexTest "^sk-[a-z0-9]+$" "" = false ∧
    (saveConfigHandler envBad wAll "s4" "token" (Value.str "")).1 =
      textResult "Field \"token\" is required and cannot be empty." true := by
  refine ⟨rfl, rfl, rfl, rfl, by decide⟩

/-- Claim C8 as amended: for a field with a declared pattern, provided the
value is not simultaneously rejected by the required check (which runs
first and wins for a required field given the empty string), a string value
failing the regular expression is rejected with the field's custom
`patternError` verbatim when declared, else a generic message including the
pattern text; a non-string value skips the pattern check entirely and
proceeds to the persistence step. -/
theorem C8_pattern_amended (env : Env) (w : World) (sessionId key : String)
    (value : Value) (session : SetupSession) (field : ConfigField)
    (p : String)
    (hs : getSession w.sessions sessionId = some session)
    (hf : session.configSchema.fields.find? (fun f => f.name == key)
        = some field)
    (hp : field.pattern = some p)
    (hreq : (field.required &&
        (value == Value.null || value == Value.undefined ||
         value == Value.str "")) = false) :
    (∀ s, value = Value.str s → env.regexTest p s = false →
      saveConfigHandler env w sessionId key value =
        (textResult (field.patternError.getD
            ("Value for \"" ++ key ++ "\" does not match pattern: " ++ p))
          true, w)) ∧
    (value.isStr = false →
      saveConfigHandler env w sessionId key value =
        attemptSave env w session sessionId key value) := by
  constructor
  · rintro s rfl hfail
    simp [saveConfigHandler, hs, hf, hreq, hp, hfail, textResult]
  · intro hstr
    simp only [saveConfigHandler, hs, hf, hreq, Bool.false_eq_true, if_false,
      hp]
    cases value with
    | str s => simp [Value.isStr] at hstr
    | null => rfl
    | undefined => rfl
    | num n => rfl
    | bool b => rfl

/-- Witness for the amended C8: on the non-required `host` field of session
`s5`, a string failing the pattern is rejected with the declared custom
pattern error, verbatim. -/
theorem C8_witness :
    saveConfigHandler envBad wAll "s5" "host" (Value.str "ftp://x") =
      (textResult "Host must use https" true, wAll) := by
  have h := (C8_pattern_amended envBad wAll "s5" "host" (Value.str "ftp://x")
    sessionOptPat optPatternField "^https://" (by decide) (by decide)
    (by decide) (by decide)).1 "ftp://x" rfl rfl
  rw [h]
  decide

/-- Claim C10: `installDependency` appends an `installDependency` mutation
to the session ledger exactly when the install call returns an ok response
whose body has `success = true`; any other outcome — including an HTTP-ok
response whose body lacks `success: true` — yields an error result and
leaves the world (hence the ledger) unchanged. -/
theorem C10_install_appends_iff (env : Env) (w : World)
    (sessionId pluginId : String) (session : SetupSession)
    (hs : getSession w.sessions sessionId = some session) :
    (∀ status error,
      env.install pluginId
          = .response true status (some true) error →
      installDependencyHandler env w sessionId pluginId =
        (textResult ("Successfully installed " ++ pluginId),
         { w with
             sessions := mapSet w.sessions sessionId
               { session with
                   mutations := session.mutations ++
                     [.installDependency pluginId] } })) ∧
    ((¬∃ status error,
        env.install pluginId
          = .response true status (some true) error) →
      (installDependencyHandler env w sessionId pluginId).1.isError
          = true ∧
      (installDependencyHandler env w sessionId pluginId).2 = w) := by
  constructor
  · intro status error hinst
    simp [installDependencyHandler, hs, hinst]
  · intro hne
    cases hinst : env.install pluginId with
    | thrown err =>
      simp only [installDependencyHandler, hs, hinst]
      exact ⟨rfl, trivial⟩
    | response ok status success error =>
      have hcond : (!ok || !(success.getD false)) = true := by
        cases ok with
        | false => rfl
        | true =>
          cases success with
          | none => rfl
          | some b =>
            cases b with
            | false => rfl
            | true => exact absurd ⟨status, error, hinst⟩ hne
      simp only [installDependencyHandler, hs, hinst, hcond, if_true]
      exact ⟨rfl, trivial⟩

/-- Witness for C10: a successful install of `p2` on session `s1` appends
exactly one `installDependency` mutation to the ledger. -/
theorem C10_witness :
    getSession
      ((installDependencyHandler envOk wAll "s1" "p2").2).sessions "s1" =
      some { sessionTok with mutations := [.installDependency "p2"] } := by
  have h := (C10_install_appends_iff envOk wAll "s1" "p2" sessionTok
    (by decide)).1 200 none rfl
  rw [h]
  decide
